import Mathlib

/-!
# Walks-app: verification of the route-position engine and dashboard statistics

Shallow embedding of the walks-app repository (a step-tracking dashboard that
maps cumulative miles walked onto a fixed Seattle→Boston waypoint route).

The repository snapshot contains the React frontend
(`frontend/src/components/*.jsx`, `frontend/src/lib/api.js`,
`frontend/src/hooks/*.js`), the SQL schema and documentation.  The FastAPI
backend (`backend/app/route.py` with the position calculation and
`backend/app/main.py` with the stats computation) is referenced by the
documentation but absent from the snapshot, so those two components are
modelled from the specification text; definitions taken from frontend source
files embed that source directly.

Numbers: JavaScript/Python floats are modelled as `ℚ`; step counts and goals
(SQL `INT`, non-negative) as `ℕ`; calendar dates as `ℤ` day numbers (walking
backward one calendar day is `d - 1`).
-/

deriving instance DecidableEq for Except

namespace Walks

/-- A route waypoint, as served by `GET /api/route` and described in the
spec data model: `{ index, city, state, lat, lon, miles_from_start }`. -/
structure Waypoint where
  index : Nat
  city : String
  state : String
  lat : ℚ
  lon : ℚ
  miles_from_start : ℚ
deriving Repr, DecidableEq

/-- A route: ordered waypoint list plus total distance
(invariant in the spec: `total_distance = waypoints.last.miles_from_start`). -/
structure Route where
  waypoints : List Waypoint
  total_distance : ℚ
deriving Repr, DecidableEq

/-- A position along the route, the result of `RouteEngine.locate`.
`current_waypoint`/`next_waypoint` are `Option`s in the model; the spec
guarantees `current_waypoint` is present for any valid route. -/
structure Position where
  miles_traveled : ℚ
  effective_miles : ℚ
  percent_complete : ℚ
  current_waypoint : Option Waypoint
  next_waypoint : Option Waypoint
  miles_to_next : ℚ
deriving Repr, DecidableEq

/-- The error taxonomy of the spec (§7): `InvalidArgument` for negative
`milesTraveled`. -/
inductive RouteError where
  | invalidArgument
deriving Repr, DecidableEq

/-- Modelled from the spec: `effectiveMiles = milesTraveled mod total_distance`
(spec §4.1); the backend `backend/app/route.py` is not in the repository
snapshot.  For a rational modulus `td > 0` the mod is
`m - td * ⌊m / td⌋`; a non-positive `td` (excluded by the route invariant)
leaves `m` unchanged. -/
def effectiveMilesOf (m td : ℚ) : ℚ :=
  if 0 < td then m - td * (⌊m / td⌋ : ℚ) else m

/-- Modelled from the spec: `percent_complete = 100 * effectiveMiles /
total_distance`, clamped to `[0, 100]` (spec §4.1); the backend is not in the
repository snapshot.  A non-positive `total_distance` yields `0`. -/
def percentCompleteOf (eff td : ℚ) : ℚ :=
  if 0 < td then min 100 (max 0 (100 * eff / td)) else 0

/-- Index (list position) of the last waypoint whose `miles_from_start ≤ eff`,
matching the spec's "last waypoint whose `miles_from_start <= effectiveMiles`"
(tie-break toward the waypoint itself is inherent in `≤`). -/
def lastIdxLE (ws : List Waypoint) (eff : ℚ) : Option Nat :=
  ((List.range ws.length).filter
    (fun i => (ws.get? i).any (fun w => decide (w.miles_from_start ≤ eff)))).getLast?

/-- Modelled from the spec: the Position built by `RouteEngine.locate` for a
non-negative input (spec §4.1): wraps the miles, picks the last waypoint at
or before `effectiveMiles`, its successor as `next_waypoint`,
`miles_to_next = next_waypoint.miles_from_start - effectiveMiles` (`0` if no
next waypoint) and the clamped percentage. -/
def locatePos (route : Route) (m : ℚ) : Position :=
  let td := route.total_distance
  let eff := effectiveMilesOf m td
  let idx := lastIdxLE route.waypoints eff
  { miles_traveled := m
    effective_miles := eff
    percent_complete := percentCompleteOf eff td
    current_waypoint := idx.bind (fun i => route.waypoints.get? i)
    next_waypoint := idx.bind (fun i => route.waypoints.get? (i + 1))
    miles_to_next :=
      ((idx.bind (fun i => route.waypoints.get? (i + 1))).map
        (fun w => w.miles_from_start - eff)).getD 0 }

/-- Modelled from the spec: `RouteEngine.locate(milesTraveled)` (spec §4.1);
`backend/app/route.py` is not in the repository snapshot.  Negative input
fails fast with `InvalidArgument` (spec §4.1/§7), never silently corrected;
otherwise the Position of `locatePos`. -/
def locate (route : Route) (milesTraveled : ℚ) : Except RouteError Position :=
  if milesTraveled < 0 then .error .invalidArgument
  else .ok (locatePos route milesTraveled)

/-- Embeds `ProgressCard` (`frontend/src/components/Dashboard.jsx`, second
variant): the progress-bar width
`Math.min(100, Math.max(0, percent_complete ?? 0))`. -/
def progressBarWidth (pc : Option ℚ) : ℚ :=
  min 100 (max 0 (pc.getD 0))

/-- Embeds `ProgressCard` (`frontend/src/components/Dashboard.jsx`, first
variant): the progress-bar width is `percent_complete` itself, unclamped
(`width: percent_complete%`). -/
def progressBarWidthRaw (pc : ℚ) : ℚ := pc

/-! ## Daily step records and the statistics summary -/

/-- A daily step record (spec data model / SQL table `daily_steps`):
calendar date (modelled as a `ℤ` day number), non-negative step count and
per-day goal. -/
structure DailyStepRecord where
  date : ℤ
  steps : ℕ
  goal : ℕ
deriving Repr, DecidableEq

/-- The week-over-week comparison payload (spec §4.2 rule 8). -/
structure WeekComparison where
  thisWeek : ℕ
  lastWeek : ℕ
  percentChange : ℤ
deriving Repr, DecidableEq

/-- Configuration constants (spec §6): steps-per-mile and the default daily
goal, injected rather than hardcoded. -/
structure Config where
  steps_per_mile : ℕ
  daily_goal : ℕ
deriving Repr, DecidableEq

/-- Embeds `DEFAULT_CONFIG` from `frontend/src/hooks/useConfig.js`:
`{ steps_per_mile: 2000, daily_goal: 15000 }`. -/
def DEFAULT_CONFIG : Config := ⟨2000, 15000⟩

/-- The full statistics payload of `summarize` (spec §4.2). -/
structure StatsSummary where
  totalSteps : ℕ
  totalDistanceMiles : ℚ
  totalDays : ℕ
  avgDailySteps : ℕ
  bestDay : Option DailyStepRecord
  currentStreak : ℕ
  daysGoalMet : ℕ
  goalMetPercentage : ℚ
  weekComparison : Option WeekComparison
  crossingsCompleted : ℤ
  currentPosition : Option Position
  milesRemaining : ℚ
  etaDate : Option ℤ
  daysToBoston : Option ℤ
deriving Repr, DecidableEq

/-- Modelled from the spec: rule 1 of §4.2, `totalSteps` = sum of `steps`
over all records (the backend stats computation is not in the repository
snapshot). -/
def totalStepsOf (records : List DailyStepRecord) : ℕ :=
  (records.map (fun r => r.steps)).sum

/-- Modelled from the spec: rule 3 of §4.2, `totalDays` = count of distinct
dates with a record. -/
def totalDaysOf (records : List DailyStepRecord) : ℕ :=
  (records.map (fun r => r.date)).dedup.length

/-- Modelled from the spec: rule 4 of §4.2, `avgDailySteps =
totalSteps / totalDays`, `0` if `totalDays = 0`. -/
def avgDailyStepsOf (records : List DailyStepRecord) : ℕ :=
  if totalDaysOf records = 0 then 0 else totalStepsOf records / totalDaysOf records

/-- Modelled from the spec: rule 5 of §4.2, best day = record with maximum
`steps`, earliest date winning ties. -/
def bestDayOf (records : List DailyStepRecord) : Option DailyStepRecord :=
  records.foldl
    (fun acc r =>
      match acc with
      | none => some r
      | some b =>
        if b.steps < r.steps ∨ (r.steps = b.steps ∧ r.date < b.date) then some r
        else some b)
    none

/-- The record for calendar day `d`, if any (records have unique dates). -/
def findRecord (records : List DailyStepRecord) (d : ℤ) : Option DailyStepRecord :=
  records.find? (fun r => decide (r.date = d))

/-- Modelled from the spec: rule 6 of §4.2, walk backward day-by-day from
`asOf`, counting consecutive days whose record meets its goal, stopping at
the first missing or failing day.  The fuel argument bounds the walk; since
each counted day consumes a distinct record, `records.length` fuel is
enough. -/
def currentStreakAux (records : List DailyStepRecord) : ℕ → ℤ → ℕ
  | 0, _ => 0
  | fuel + 1, d =>
    match findRecord records d with
    | some r => if r.goal ≤ r.steps then currentStreakAux records fuel (d - 1) + 1 else 0
    | none => 0

/-- Modelled from the spec: `currentStreak` anchored at `asOf` (spec §4.2
rule 6). -/
def currentStreakOf (records : List DailyStepRecord) (asOf : ℤ) : ℕ :=
  currentStreakAux records records.length asOf

/-- Modelled from the spec: rule 7 of §4.2, `daysGoalMet` = count of records
with `steps >= goal`. -/
def daysGoalMetOf (records : List DailyStepRecord) : ℕ :=
  records.countP (fun r => decide (r.goal ≤ r.steps))

/-- Modelled from the spec: rule 7 of §4.2, `goalMetPercentage =
100 * daysGoalMet / totalDays` rounded to one decimal, `0` if
`totalDays = 0`. -/
def goalMetPercentageOf (records : List DailyStepRecord) : ℚ :=
  if totalDaysOf records = 0 then 0
  else ((round ((10 : ℚ) * (100 * (daysGoalMetOf records : ℚ) / (totalDaysOf records : ℚ))) : ℤ) : ℚ) / 10

/-- Sum of steps over records whose date lies in `[lo, hi]` (a 7-day window
in rule 8 of §4.2). -/
def weekSum (records : List DailyStepRecord) (lo hi : ℤ) : ℕ :=
  ((records.filter (fun r => decide (lo ≤ r.date ∧ r.date ≤ hi))).map (fun r => r.steps)).sum

/-- Modelled from the spec: rule 8 of §4.2, this week = 7 days ending at
`asOf`, last week = the preceding 7-day window; a zero last-week sum yields
`none` (never a division by zero), otherwise
`percentChange = round(100 * (thisWeek - lastWeek) / lastWeek)`. -/
def weekComparisonOf (records : List DailyStepRecord) (asOf : ℤ) : Option WeekComparison :=
  let thisW := weekSum records (asOf - 6) asOf
  let lastW := weekSum records (asOf - 13) (asOf - 7)
  if lastW = 0 then none
  else some ⟨thisW, lastW, round ((100 : ℚ) * ((thisW : ℚ) - (lastW : ℚ)) / (lastW : ℚ))⟩

/-- The pace-estimation window of rule 12 of §4.2 (last 30 days with data). -/
def paceWindow : ℕ := 30

/-- The most recent `paceWindow` records (records sorted by date,
descending). -/
def recentRecords (records : List DailyStepRecord) : List DailyStepRecord :=
  (records.mergeSort (fun a b => decide (b.date ≤ a.date))).take paceWindow

/-- Modelled from the spec: rule 12 of §4.2, the trailing average of daily
miles over the recent window, `0` when no records exist. -/
def dailyPaceMilesOf (records : List DailyStepRecord) (spm : ℕ) : ℚ :=
  let recent := recentRecords records
  if recent.length = 0 then 0
  else (totalStepsOf recent : ℚ) / (spm : ℚ) / (recent.length : ℚ)

/-- Modelled from the spec: `StatsAggregator.summarize(records, asOf, route)`
(spec §4.2, rules 1–12); the backend stats computation
(`backend/app/main.py`) is not in the repository snapshot.  `cfg` carries the
injected constants of §6.  Every zero denominator resolves to a defined
default (`0` or `none`) per the spec's failure semantics. -/
def summarize (records : List DailyStepRecord) (asOf : ℤ) (route : Route)
    (cfg : Config) : StatsSummary :=
  let totalSteps := totalStepsOf records
  let totalDistanceMiles := (totalSteps : ℚ) / (cfg.steps_per_mile : ℚ)
  let pos := locate route totalDistanceMiles
  let eff := match pos with
    | .ok p => p.effective_miles
    | .error _ => 0
  let milesRemaining := route.total_distance - eff
  let pace := dailyPaceMilesOf records cfg.steps_per_mile
  let dtb := if 0 < pace then some ⌈milesRemaining / pace⌉ else none
  { totalSteps := totalSteps
    totalDistanceMiles := totalDistanceMiles
    totalDays := totalDaysOf records
    avgDailySteps := avgDailyStepsOf records
    bestDay := bestDayOf records
    currentStreak := currentStreakOf records asOf
    daysGoalMet := daysGoalMetOf records
    goalMetPercentage := goalMetPercentageOf records
    weekComparison := weekComparisonOf records asOf
    crossingsCompleted :=
      if 0 < route.total_distance then ⌊totalDistanceMiles / route.total_distance⌋ else 0
    currentPosition := pos.toOption
    milesRemaining := milesRemaining
    etaDate := dtb.map (fun d => asOf + d)
    daysToBoston := dtb }

/-! ## Frontend embeds: StepsChart, StepsDetail2025, useConfig -/

/-- Embeds `avgGoal` from `frontend/src/components/StepsChart.jsx`: the
dashed reference line is `dailyGoal` when `chartData` is empty, otherwise
`Math.round` of the mean of the per-day goals. -/
def avgGoal (goals : List ℕ) (dailyGoal : ℕ) : ℤ :=
  if goals.length = 0 then (dailyGoal : ℤ)
  else round ((goals.sum : ℚ) / (goals.length : ℚ))

/-- A tooltip payload datum in `StepsChart.jsx`: `steps` and `goal` may be
absent (`??` fallbacks apply). -/
structure ChartDatum where
  steps : Option ℕ
  goal : Option ℕ
deriving Repr, DecidableEq

/-- Embeds `CustomTooltip` of `frontend/src/components/StepsChart.jsx`:
`steps = data.steps ?? 0`, `goal = data.goal ?? dailyGoal`,
`metGoal = steps >= goal`. -/
def tooltipMetGoal (d : ChartDatum) (dailyGoal : ℕ) : Bool :=
  d.goal.getD dailyGoal ≤ d.steps.getD 0

/-- Embeds the constant `STEPS_PER_MILE = 2000` of
`frontend/src/components/StepsDetail2025.jsx`. -/
def STEPS_PER_MILE : ℕ := 2000

/-- Embeds the constant `DAILY_GOAL = 15000` of
`frontend/src/components/StepsDetail2025.jsx`. -/
def DAILY_GOAL : ℕ := 15000

/-- Embeds the fetched-and-sorted `steps` state of `StepsDetail2025.jsx`
(sorted by date descending before display). -/
def detailSortedSteps (steps : List DailyStepRecord) : List DailyStepRecord :=
  steps.mergeSort (fun a b => decide (b.date ≤ a.date))

/-- Embeds `totalSteps = steps.reduce((sum, day) => sum + day.steps, 0)` of
`StepsDetail2025.jsx`, applied to the sorted list held in component state. -/
def detailTotalSteps (steps : List DailyStepRecord) : ℕ :=
  (detailSortedSteps steps).foldl (fun sum day => sum + day.steps) 0

/-- Embeds `totalMiles = totalSteps / STEPS_PER_MILE` of
`StepsDetail2025.jsx`. -/
def detailTotalMiles (steps : List DailyStepRecord) : ℚ :=
  (detailTotalSteps steps : ℚ) / (STEPS_PER_MILE : ℚ)

/-- Embeds `metGoal = day.steps >= DAILY_GOAL` of `StepsDetail2025.jsx`
(note: the hardcoded constant, not the record's own `goal`). -/
def detailMetGoal (day : DailyStepRecord) : Bool :=
  DAILY_GOAL ≤ day.steps

/-! ## RouteMap polyline split -/

/-- A map coordinate `[lat, lon]`. -/
structure LatLng where
  lat : ℚ
  lon : ℚ
deriving Repr, DecidableEq

/-- The `currentPosition` prop of `RouteMap` (`stats.current_position`):
coordinates plus the current waypoint. -/
structure CurrentPosition where
  lat : ℚ
  lon : ℚ
  current_waypoint : Option Waypoint
deriving Repr, DecidableEq

/-- Embeds `routeCoords = waypoints.map(wp => [wp.lat, wp.lon])` of
`frontend/src/components/RouteMap.jsx`. -/
def routeCoords (waypoints : List Waypoint) : List LatLng :=
  waypoints.map (fun wp => ⟨wp.lat, wp.lon⟩)

/-- Embeds the `completedCoords`/`remainingCoords` computation of
`frontend/src/components/RouteMap.jsx` (lines 61–83): with no current
position (or no waypoints) the completed segment is empty and the remaining
segment is the whole route; otherwise, with
`i = currentPosition.current_waypoint?.index || 0`, completed =
`routeCoords.slice(0, i + 1)` followed by the current coordinate, and
remaining = the current coordinate followed by `routeCoords.slice(i + 1)`.
JavaScript's `i || 0` agrees with `getD`-style defaulting on `ℕ` (it maps
both a missing index and `0` to `0`). -/
def splitRoute (waypoints : List Waypoint) (currentPosition : Option CurrentPosition) :
    List LatLng × List LatLng :=
  let rc := routeCoords waypoints
  match currentPosition with
  | none => ([], rc)
  | some p =>
    if waypoints.length = 0 then ([], rc)
    else
      let i := match p.current_waypoint with
        | some w => w.index
        | none => 0
      let cur : LatLng := ⟨p.lat, p.lon⟩
      (rc.take (i + 1) ++ [cur], cur :: rc.drop (i + 1))

/-! ## The API wrapper fetchAPI -/

/-- An abstract HTTP response as observed by `fetchAPI`
(`frontend/src/lib/api.js`): `ok`, numeric `status`, the `content-type`
header (absent headers give `none`) and the body text. -/
structure HttpResponse where
  ok : Bool
  status : ℕ
  contentType : Option String
  body : String
deriving Repr, DecidableEq

/-- The two `throw new Error(...)` shapes of `fetchAPI`: `API error:
<status>` for a non-ok response, and `Unexpected content-type: <ct>` for an
ok non-JSON response. -/
inductive FetchError where
  | apiError (status : ℕ)
  | contentTypeError (ct : String)
deriving Repr, DecidableEq

/-- A value returned by `fetchAPI`: `null` (204 or empty body) or the parsed
JSON body, represented by its source text (`JSON.parse` is treated as
opaque). -/
inductive ApiValue where
  | null
  | jsonOf (text : String)
deriving Repr, DecidableEq

/-- Does the character list contain `+json` starting at some position?
(the `.*\+json` alternative of the content-type regex). -/
def plusJsonSearch : List Char → Bool
  | [] => false
  | c :: rest => "+json".toList.isPrefixOf (c :: rest) || plusJsonSearch rest

/-- Search step for the content-type test: does the character list contain a
match of the regex `application\/(?:.*\+)?json`?  A match occurs at a
position where `application/` is a prefix and the rest either starts with
`json` or contains `+json` (content-type strings contain no newline, so `.`
is unrestricted). -/
def ctSearch : List Char → Bool
  | [] => false
  | c :: rest =>
    ("application/".toList.isPrefixOf (c :: rest) &&
      ("json".toList.isPrefixOf ((c :: rest).drop 12) ||
        plusJsonSearch ((c :: rest).drop 12)))
    || ctSearch rest

/-- Embeds the content-type test
`/application\/(?:.*\+)?json/.test(contentType)` of `fetchAPI`. -/
def isJsonContentType (ct : String) : Bool :=
  ctSearch ct.toList

/-- Embeds the JavaScript emptiness test `!text.trim()`: true exactly when
every character of the body is whitespace. -/
def isBlank (s : String) : Bool :=
  s.toList.all (fun c => c.isWhitespace)

/-- The ok-branch of `fetchAPI` (`frontend/src/lib/api.js`, after the
`response.ok` check): a 204 or an all-whitespace body returns `null`; a
JSON content type yields the parsed body; otherwise `Unexpected
content-type` is thrown (the string `"none"` standing for a missing header,
as in the source's template literal). -/
def okBody (r : HttpResponse) : Except FetchError ApiValue :=
  if r.status = 204 then .ok .null
  else if isBlank r.body then .ok .null
  else
    match r.contentType with
    | some ct => if isJsonContentType ct then .ok (.jsonOf r.body) else .error (.contentTypeError ct)
    | none => .error (.contentTypeError "none")

/-- Embeds `fetchAPI` of `frontend/src/lib/api.js` as a pure function of the
observed response: a non-ok response throws `API error: <status>`; an ok
response is handled by `okBody`. -/
def fetchAPI (r : HttpResponse) : Except FetchError ApiValue :=
  if r.ok = false then .error (.apiError r.status)
  else okBody r

/-! ## Concrete scenario data (spec §8) -/

/-- Origin waypoint of the spec's three-waypoint scenario. -/
def seattle : Waypoint := ⟨0, "Seattle", "WA", 0, 0, 0⟩

/-- Middle waypoint (1426 miles) of the spec's scenario. -/
def midpointCity : Waypoint := ⟨1, "MidpointCity", "", 0, 0, 1426⟩

/-- Destination waypoint (2850 miles) of the spec's scenario. -/
def boston : Waypoint := ⟨2, "Boston", "MA", 0, 0, 2850⟩

/-- The spec §8 scenario route: waypoints at 0, 1426 and 2850 miles. -/
def sampleRoute : Route := ⟨[seattle, midpointCity, boston], 2850⟩

/-! ## Helper lemmas -/

/-- `locate` on a non-negative input succeeds with the `locatePos` payload. -/
theorem locate_ok (route : Route) (m : ℚ) (h : 0 ≤ m) :
    locate route m = .ok (locatePos route m) := by
  rw [locate, if_neg (not_lt.mpr h)]

/-- The clamped percentage always lies in `[0, 100]`. -/
theorem percentCompleteOf_mem (eff td : ℚ) :
    0 ≤ percentCompleteOf eff td ∧ percentCompleteOf eff td ≤ 100 := by
  rw [percentCompleteOf]
  split
  · exact ⟨le_min (by norm_num) (le_max_left 0 _), min_le_left _ _⟩
  · norm_num

/-- The scenario's effective miles: `1426 mod 2850 = 1426`. -/
theorem effectiveMiles_sample : effectiveMilesOf 1426 sampleRoute.total_distance = 1426 := by
  rw [effectiveMilesOf]
  norm_num [sampleRoute]

/-- For a positive total distance, the wrapped miles are the total distance
times the fractional part of `m / td`. -/
theorem effectiveMilesOf_eq_fract (m td : ℚ) (htd : 0 < td) :
    effectiveMilesOf m td = td * Int.fract (m / td) := by
  rw [effectiveMilesOf, if_pos htd, Int.fract]
  field_simp

/-- An empty record set has pace `0`. -/
theorem dailyPaceMilesOf_nil (spm : ℕ) : dailyPaceMilesOf [] spm = 0 := by
  rw [dailyPaceMilesOf, recentRecords]
  simp

/-- The `reduce`-style fold of `StepsDetail2025` is a sum. -/
theorem foldl_add_steps (l : List DailyStepRecord) (n : ℕ) :
    l.foldl (fun sum day => sum + day.steps) n = n + (l.map (fun r => r.steps)).sum := by
  induction l generalizing n with
  | nil => simp
  | cons a l ih => simp [ih, Nat.add_assoc]

/-- Sorting the detail rows does not change the step sum. -/
theorem sum_steps_perm (l : List DailyStepRecord) :
    ((detailSortedSteps l).map (fun r => r.steps)).sum = (l.map (fun r => r.steps)).sum :=
  List.Perm.sum_eq (List.Perm.map _ (List.mergeSort_perm l _))

/-- The ok-branch of `fetchAPI` never produces an `API error:` throw. -/
theorem okBody_ne_apiError (r : HttpResponse) (s : ℕ) : okBody r ≠ .error (.apiError s) := by
  rw [okBody]
  split
  · simp
  · split
    · simp
    · split
      · split <;> simp
      · simp

/-! ## Claims -/

/-- C1: for every `milesTraveled ≥ 0`, `RouteEngine.locate` succeeds and its
`percent_complete` lies in `[0, 100]` (computed as
`100 * effectiveMiles / total_distance`, clamped); consequently both
progress-bar widths `ProgressCard` derives from a rendered
`percent_complete` — the clamped one and the raw one — also lie in
`[0, 100]`, and the clamped width lies in `[0, 100]` for any input at
all. -/
theorem percent_complete_within_bounds (route : Route) (m : ℚ) (h : 0 ≤ m) :
    (∃ p, locate route m = .ok p ∧
      0 ≤ p.percent_complete ∧ p.percent_complete ≤ 100 ∧
      0 ≤ progressBarWidth (some p.percent_complete) ∧
      progressBarWidth (some p.percent_complete) ≤ 100 ∧
      0 ≤ progressBarWidthRaw p.percent_complete ∧
      progressBarWidthRaw p.percent_complete ≤ 100) ∧
    (∀ q : Option ℚ, 0 ≤ progressBarWidth q ∧ progressBarWidth q ≤ 100) := by
  have hw : ∀ q : Option ℚ, 0 ≤ progressBarWidth q ∧ progressBarWidth q ≤ 100 := by
    intro q
    rw [progressBarWidth]
    exact ⟨le_min (by norm_num) (le_max_left 0 _), min_le_left _ _⟩
  obtain ⟨h0, h100⟩ := percentCompleteOf_mem (effectiveMilesOf m route.total_distance)
    route.total_distance
  exact ⟨⟨locatePos route m, locate_ok route m h, h0, h100,
    (hw _).1, (hw _).2, h0, h100⟩, hw⟩

/-- Witness for C1 at the spec scenario route and `m = 1426`. -/
theorem percent_complete_within_bounds_witness :
    (0 : ℚ) ≤ 1426 ∧
    ((∃ p, locate sampleRoute 1426 = .ok p ∧
      0 ≤ p.percent_complete ∧ p.percent_complete ≤ 100 ∧
      0 ≤ progressBarWidth (some p.percent_complete) ∧
      progressBarWidth (some p.percent_complete) ≤ 100 ∧
      0 ≤ progressBarWidthRaw p.percent_complete ∧
      progressBarWidthRaw p.percent_complete ≤ 100) ∧
    (∀ q : Option ℚ, 0 ≤ progressBarWidth q ∧ progressBarWidth q ≤ 100)) :=
  ⟨by decide, percent_complete_within_bounds sampleRoute 1426 (by decide)⟩

/-- C2: for `m ≥ 0` on a route of positive total distance, `locate` wraps
the miles (`effectiveMiles = m mod total_distance`, i.e. `0 ≤ effectiveMiles
< total_distance` with `m = total_distance * k + effectiveMiles` for an
integer `k`), and on the spec scenario route (waypoints at 0, 1426, 2850
miles) `locate(1426)` yields `current_waypoint = MidpointCity` (the
tie-break at an exact waypoint mileage keeps that waypoint itself),
`next_waypoint = Boston` and `miles_to_next = 1424`. -/
theorem locate_wraps_and_selects_last_waypoint (route : Route) (m : ℚ)
    (h : 0 ≤ m) (htd : 0 < route.total_distance) :
    (∃ p, locate route m = .ok p ∧
      0 ≤ p.effective_miles ∧ p.effective_miles < route.total_distance ∧
      ∃ k : ℤ, m = route.total_distance * k + p.effective_miles) ∧
    (∃ p, locate sampleRoute 1426 = .ok p ∧
      p.effective_miles = 1426 ∧
      p.current_waypoint = some midpointCity ∧
      p.next_waypoint = some boston ∧
      p.miles_to_next = 1424) := by
  constructor
  · refine ⟨locatePos route m, locate_ok route m h, ?_, ?_, ?_⟩
    · show 0 ≤ effectiveMilesOf m route.total_distance
      rw [effectiveMilesOf_eq_fract m route.total_distance htd]
      exact mul_nonneg htd.le (Int.fract_nonneg _)
    · show effectiveMilesOf m route.total_distance < route.total_distance
      rw [effectiveMilesOf_eq_fract m route.total_distance htd]
      calc route.total_distance * Int.fract (m / route.total_distance)
          < route.total_distance * 1 := (mul_lt_mul_left htd).mpr (Int.fract_lt_one _)
        _ = route.total_distance := mul_one _
    · refine ⟨⌊m / route.total_distance⌋, ?_⟩
      show m = route.total_distance * _ + effectiveMilesOf m route.total_distance
      rw [effectiveMilesOf, if_pos htd]
      ring
  · refine ⟨locatePos sampleRoute 1426, locate_ok _ _ (by norm_num), ?_, ?_, ?_, ?_⟩
    · exact effectiveMiles_sample
    · show (lastIdxLE sampleRoute.waypoints
          (effectiveMilesOf 1426 sampleRoute.total_distance)).bind _ = _
      simp only [effectiveMiles_sample]
      decide
    · show (lastIdxLE sampleRoute.waypoints
          (effectiveMilesOf 1426 sampleRoute.total_distance)).bind _ = _
      simp only [effectiveMiles_sample]
      decide
    · show (((lastIdxLE sampleRoute.waypoints
          (effectiveMilesOf 1426 sampleRoute.total_distance)).bind
          (fun i => sampleRoute.waypoints.get? (i + 1))).map
          (fun w => w.miles_from_start
            - effectiveMilesOf 1426 sampleRoute.total_distance)).getD 0 = 1424
      rw [effectiveMiles_sample]
      have hnxt : (lastIdxLE sampleRoute.waypoints 1426).bind
          (fun i => sampleRoute.waypoints.get? (i + 1)) = some boston := by decide
      rw [hnxt]
      show boston.miles_from_start - 1426 = 1424
      norm_num [boston]

/-- Witness for C2 at the spec scenario route and `m = 1426`. -/
theorem locate_wraps_and_selects_last_waypoint_witness :
    (0 : ℚ) ≤ 1426 ∧ 0 < sampleRoute.total_distance ∧
    ((∃ p, locate sampleRoute 1426 = .ok p ∧
      0 ≤ p.effective_miles ∧ p.effective_miles < sampleRoute.total_distance ∧
      ∃ k : ℤ, (1426 : ℚ) = sampleRoute.total_distance * k + p.effective_miles) ∧
    (∃ p, locate sampleRoute 1426 = .ok p ∧
      p.effective_miles = 1426 ∧
      p.current_waypoint = some midpointCity ∧
      p.next_waypoint = some boston ∧
      p.miles_to_next = 1424)) :=
  ⟨by decide, by decide,
    locate_wraps_and_selects_last_waypoint sampleRoute 1426 (by decide) (by decide)⟩

/-- C3: `summarize` on an empty record set never fails and returns the
zeroed/null defaults: `totalSteps = 0`, `totalDays = 0`,
`avgDailySteps = 0`, `currentStreak = 0`, `weekComparison = none`,
`etaDate = none` (with `daysToBoston`, `goalMetPercentage` and `bestDay`
likewise defaulted); the `avgGoal` reference line of `StepsChart` on empty
chart data likewise falls back to the default goal rather than dividing by
zero. -/
theorem summarize_empty_defaults (asOf : ℤ) (route : Route) (cfg : Config) :
    (summarize [] asOf route cfg).totalSteps = 0 ∧
    (summarize [] asOf route cfg).totalDays = 0 ∧
    (summarize [] asOf route cfg).avgDailySteps = 0 ∧
    (summarize [] asOf route cfg).currentStreak = 0 ∧
    (summarize [] asOf route cfg).weekComparison = none ∧
    (summarize [] asOf route cfg).etaDate = none ∧
    (summarize [] asOf route cfg).daysToBoston = none ∧
    (summarize [] asOf route cfg).goalMetPercentage = 0 ∧
    (summarize [] asOf route cfg).bestDay = none ∧
    avgGoal [] cfg.daily_goal = (cfg.daily_goal : ℤ) := by
  have hp : ¬ (0 < dailyPaceMilesOf [] cfg.steps_per_mile) := by
    rw [dailyPaceMilesOf_nil]
    norm_num
  refine ⟨rfl, rfl, rfl, rfl, rfl, ?_, ?_, rfl, rfl, rfl⟩
  · simp only [summarize]
    rw [if_neg hp]
    rfl
  · simp only [summarize]
    rw [if_neg hp]

/-- C4: `totalSteps` is the sum of the `steps` field over all records and
`totalDistanceMiles = totalSteps / stepsPerMile` (default 2000, matching
`DEFAULT_CONFIG`); the 2025 detail page's `totalSteps`/`totalMiles`
(`StepsDetail2025.jsx`) compute exactly these two aggregates over the
fetched records, at the constant `STEPS_PER_MILE = 2000`. -/
theorem totals_sum_and_distance (records : List DailyStepRecord) (asOf : ℤ)
    (route : Route) (cfg : Config) :
    (summarize records asOf route cfg).totalSteps = (records.map (fun r => r.steps)).sum ∧
    (summarize records asOf route cfg).totalDistanceMiles
        = ((((records.map (fun r => r.steps)).sum : ℕ)) : ℚ) / (cfg.steps_per_mile : ℚ) ∧
    detailTotalSteps records = (records.map (fun r => r.steps)).sum ∧
    detailTotalMiles records = ((((records.map (fun r => r.steps)).sum : ℕ)) : ℚ) / (2000 : ℚ) ∧
    STEPS_PER_MILE = 2000 ∧ DEFAULT_CONFIG.steps_per_mile = 2000 := by
  have h3 : detailTotalSteps records = (records.map (fun r => r.steps)).sum := by
    rw [detailTotalSteps, foldl_add_steps, Nat.zero_add, sum_steps_perm]
  refine ⟨rfl, rfl, h3, ?_, rfl, rfl⟩
  rw [detailTotalMiles, h3]
  norm_num [STEPS_PER_MILE]

/-- C5: in `summarize`'s week comparison, a zero last-week sum — whether
this week is zero or positive — reports `none` (no division by the zero
sum ever happens), and a non-zero last-week sum reports
`percentChange = round(100 * (thisWeek - lastWeek) / lastWeek)`. -/
theorem weekComparison_zero_lastweek_null (records : List DailyStepRecord)
    (asOf : ℤ) (route : Route) (cfg : Config) :
    (weekSum records (asOf - 13) (asOf - 7) = 0 →
      (summarize records asOf route cfg).weekComparison = none) ∧
    (weekSum records (asOf - 13) (asOf - 7) ≠ 0 →
      (summarize records asOf route cfg).weekComparison =
        some ⟨weekSum records (asOf - 6) asOf, weekSum records (asOf - 13) (asOf - 7),
          round ((100 : ℚ) * ((weekSum records (asOf - 6) asOf : ℚ)
            - (weekSum records (asOf - 13) (asOf - 7) : ℚ))
            / (weekSum records (asOf - 13) (asOf - 7) : ℚ))⟩) := by
  constructor
  · intro h
    show weekComparisonOf records asOf = none
    rw [weekComparisonOf]
    simp only [h]
    rfl
  · intro h
    show weekComparisonOf records asOf = _
    rw [weekComparisonOf]
    simp only [if_neg h]

/-- Witness for C5 with the spec scenario `lastWeek = 0, thisWeek = 5000`
(a single record of 5000 steps on the `asOf` day). -/
theorem weekComparison_zero_lastweek_null_witness :
    weekSum [⟨0, 5000, 15000⟩] (0 - 13) (0 - 7) = 0 ∧
    (summarize [⟨0, 5000, 15000⟩] 0 sampleRoute DEFAULT_CONFIG).weekComparison = none :=
  ⟨by decide,
    (weekComparison_zero_lastweek_null [⟨0, 5000, 15000⟩] 0 sampleRoute DEFAULT_CONFIG).1
      (by decide)⟩

/-- C6: `RouteEngine.locate` fails with `InvalidArgument` exactly when
`milesTraveled` is negative (the check happens at the entry boundary and
the input is never silently corrected), and every non-negative input yields
a Position carrying the input unchanged. -/
theorem locate_invalid_argument_iff (route : Route) (m : ℚ) :
    (locate route m = .error .invalidArgument ↔ m < 0) ∧
    (0 ≤ m → ∃ p, locate route m = .ok p ∧ p.miles_traveled = m) := by
  constructor
  · constructor
    · intro h
      by_contra hm
      rw [locate, if_neg hm] at h
      exact Except.noConfusion h
    · intro h
      rw [locate, if_pos h]
  · intro h
    exact ⟨locatePos route m, locate_ok route m h, rfl⟩

/-- Witness for C6: `locate(-1)` rejects, `locate(5)` succeeds. -/
theorem locate_invalid_argument_iff_witness :
    locate sampleRoute (-1) = .error .invalidArgument ∧
    (0 : ℚ) ≤ 5 ∧
    (∃ p, locate sampleRoute 5 = .ok p ∧ p.miles_traveled = 5) :=
  ⟨(locate_invalid_argument_iff sampleRoute (-1)).1.mpr (by decide), by decide,
    (locate_invalid_argument_iff sampleRoute 5).2 (by decide)⟩

/-- C7: a day meets its goal exactly when `steps ≥ goal` — the threshold is
inclusive, so a day with `steps` equal to the goal counts; `daysGoalMet` is
the count of such records, and both frontend goal-met decisions
(`CustomTooltip` of `StepsChart.jsx` and the badge of
`StepsDetail2025.jsx`) use the same inclusive `>=` comparison against their
respective thresholds. -/
theorem goal_met_inclusive_everywhere (records : List DailyStepRecord) (asOf : ℤ)
    (route : Route) (cfg : Config) (r : DailyStepRecord) (dg : ℕ) :
    (summarize records asOf route cfg).daysGoalMet
        = (records.filter (fun x => decide (x.goal ≤ x.steps))).length ∧
    (tooltipMetGoal ⟨some r.steps, some r.goal⟩ dg = true ↔ r.goal ≤ r.steps) ∧
    (detailMetGoal r = true ↔ DAILY_GOAL ≤ r.steps) ∧
    (r.steps = r.goal → tooltipMetGoal ⟨some r.steps, some r.goal⟩ dg = true) ∧
    (r.steps = DAILY_GOAL → detailMetGoal r = true) := by
  refine ⟨List.countP_eq_length_filter _ _, ?_, ?_, ?_, ?_⟩
  · simp [tooltipMetGoal]
  · simp [detailMetGoal]
  · intro h
    simp [tooltipMetGoal, h]
  · intro h
    simp [detailMetGoal, h]

/-- Witness for C7 at a record whose steps exactly equal its goal (and the
detail-page constant). -/
theorem goal_met_inclusive_everywhere_witness :
    (⟨0, 15000, 15000⟩ : DailyStepRecord).steps = (⟨0, 15000, 15000⟩ : DailyStepRecord).goal ∧
    tooltipMetGoal ⟨some (⟨0, 15000, 15000⟩ : DailyStepRecord).steps,
      some (⟨0, 15000, 15000⟩ : DailyStepRecord).goal⟩ 15000 = true ∧
    detailMetGoal ⟨0, 15000, 15000⟩ = true :=
  ⟨rfl,
    (goal_met_inclusive_everywhere [] 0 sampleRoute DEFAULT_CONFIG
      ⟨0, 15000, 15000⟩ 15000).2.2.2.1 rfl,
    (goal_met_inclusive_everywhere [] 0 sampleRoute DEFAULT_CONFIG
      ⟨0, 15000, 15000⟩ 15000).2.2.2.2 rfl⟩

/-- C8 counterexample: the claim says the goal-met determination for a
record carrying goal `g` uses the threshold `g` everywhere.  For the record
`{steps := 12000, goal := 10000}` the 2025 detail page
(`metGoal = day.steps >= DAILY_GOAL` with the hardcoded
`DAILY_GOAL = 15000`) reports `false` even though `steps ≥ goal` holds (and
the chart tooltip, which does use the record's goal, reports `true`). -/
theorem detailMetGoal_ignores_record_goal :
    (⟨0, 12000, 10000⟩ : DailyStepRecord).goal ≤ (⟨0, 12000, 10000⟩ : DailyStepRecord).steps ∧
    detailMetGoal ⟨0, 12000, 10000⟩ = false ∧
    tooltipMetGoal ⟨some 12000, some 10000⟩ DEFAULT_CONFIG.daily_goal = true := by
  decide

/-- C8 amended: the chart tooltip uses the record's own goal when present
and otherwise the injected `dailyGoal` default, and `useConfig` injects
`daily_goal = 15000`; the 2025 detail page, however, decides goal-met
against the hardcoded constant `DAILY_GOAL = 15000` regardless of the
record's own goal. -/
theorem goal_threshold_usage (g s dg : ℕ) (day : DailyStepRecord) :
    (tooltipMetGoal ⟨some s, some g⟩ dg = decide (g ≤ s)) ∧
    (tooltipMetGoal ⟨some s, none⟩ dg = decide (dg ≤ s)) ∧
    (detailMetGoal day = decide (DAILY_GOAL ≤ day.steps)) ∧
    DAILY_GOAL = 15000 ∧ DEFAULT_CONFIG.daily_goal = 15000 := by
  refine ⟨?_, ?_, rfl, rfl, rfl⟩ <;> simp [tooltipMetGoal]

/-- C9 counterexample: the claim says every ok response returns the parsed
JSON body.  An ok `200` response with content type `text/html` and a
non-empty body instead throws `Unexpected content-type`. -/
theorem fetchAPI_ok_nonjson_throws :
    (⟨true, 200, some "text/html", "hello"⟩ : HttpResponse).ok = true ∧
    fetchAPI ⟨true, 200, some "text/html", "hello"⟩
      = .error (.contentTypeError "text/html") := by
  decide

/-- C9 amended: `fetchAPI` throws an Error naming the HTTP status exactly
when the response is not ok (so a non-ok response never reaches callers as a
normal value); an ok response returns the parsed JSON body when the body is
non-empty and the content type is a JSON type, returns `null` on a 204 or
an empty body, and throws a content-type error (not naming the status)
otherwise. -/
theorem fetchAPI_status_error_iff_not_ok (r : HttpResponse) :
    (fetchAPI r = .error (.apiError r.status) ↔ r.ok = false) ∧
    (∀ s, fetchAPI r = .error (.apiError s) → r.ok = false ∧ s = r.status) ∧
    (r.ok = true → r.status ≠ 204 → isBlank r.body = false →
      ∀ ct, r.contentType = some ct → isJsonContentType ct = true →
        fetchAPI r = .ok (.jsonOf r.body)) ∧
    (r.ok = true → (r.status = 204 ∨ isBlank r.body = true) → fetchAPI r = .ok .null) := by
  refine ⟨?_, ?_, ?_, ?_⟩
  · constructor
    · intro h
      by_contra hok
      rw [Bool.not_eq_false] at hok
      rw [fetchAPI] at h
      simp only [hok] at h
      exact okBody_ne_apiError r _ (by simpa using h)
    · intro h
      rw [fetchAPI, if_pos h]
  · intro s h
    rcases hok : r.ok with _ | _
    · rw [fetchAPI] at h
      simp only [hok, if_pos] at h
      exact ⟨rfl, (FetchError.apiError.inj (Except.error.inj h)).symm⟩
    · exfalso
      rw [fetchAPI] at h
      simp only [hok] at h
      exact okBody_ne_apiError r s (by simpa using h)
  · intro hok h204 hblank ct hct hjson
    rw [fetchAPI]
    simp [hok, okBody, h204, hblank, hct, hjson]
  · intro hok h
    rw [fetchAPI]
    rcases h with h | h <;> simp [hok, okBody, h]

/-- Witness for C9: a non-ok 500 throws `API error: 500`; an ok JSON
response parses; an ok 204 yields `null`. -/
theorem fetchAPI_status_error_iff_not_ok_witness :
    fetchAPI ⟨false, 500, none, ""⟩ = .error (.apiError 500) ∧
    fetchAPI ⟨true, 200, some "application/json", "0"⟩ = .ok (.jsonOf "0") ∧
    fetchAPI ⟨true, 204, none, ""⟩ = .ok .null :=
  ⟨(fetchAPI_status_error_iff_not_ok ⟨false, 500, none, ""⟩).1.mpr rfl,
    (fetchAPI_status_error_iff_not_ok ⟨true, 200, some "application/json", "0"⟩).2.2.1
      rfl (by decide) (by decide) "application/json" rfl (by decide),
    (fetchAPI_status_error_iff_not_ok ⟨true, 204, none, ""⟩).2.2.2 rfl (Or.inl rfl)⟩

/-- C10: with a current position whose current waypoint has index
`i < n`, `RouteMap` splits the route into a completed polyline (waypoint
coordinates `0..i` then the current coordinate) and a remaining polyline
(the current coordinate then waypoint coordinates `i+1..n-1`): every
waypoint coordinate appears in exactly one segment, the two segments minus
the shared current coordinate concatenate back to the route in order, and
with no current position the completed segment is empty and the remaining
segment is the whole route. -/
theorem splitRoute_partitions_waypoints (waypoints : List Waypoint)
    (p : CurrentPosition) (w : Waypoint)
    (hw : p.current_waypoint = some w) (hi : w.index < waypoints.length) :
    ((splitRoute waypoints (some p)).1 =
        (routeCoords waypoints).take (w.index + 1) ++ [⟨p.lat, p.lon⟩]) ∧
    ((splitRoute waypoints (some p)).2 =
        (⟨p.lat, p.lon⟩ : LatLng) :: (routeCoords waypoints).drop (w.index + 1)) ∧
    ((splitRoute waypoints (some p)).1.dropLast ++ (splitRoute waypoints (some p)).2.drop 1
        = routeCoords waypoints) ∧
    ((splitRoute waypoints (some p)).1.dropLast.length = w.index + 1) ∧
    (((splitRoute waypoints (some p)).2.drop 1).length = waypoints.length - (w.index + 1)) ∧
    splitRoute waypoints none = ([], routeCoords waypoints) := by
  have hne : ¬ (waypoints.length = 0) := by omega
  have h1 : (splitRoute waypoints (some p)).1
      = (routeCoords waypoints).take (w.index + 1) ++ [⟨p.lat, p.lon⟩] := by
    rw [splitRoute]
    simp only [if_neg hne, hw]
  have h2 : (splitRoute waypoints (some p)).2
      = (⟨p.lat, p.lon⟩ : LatLng) :: (routeCoords waypoints).drop (w.index + 1) := by
    rw [splitRoute]
    simp only [if_neg hne, hw]
  have hlen : (routeCoords waypoints).length = waypoints.length := List.length_map _ _
  refine ⟨h1, h2, ?_, ?_, ?_, rfl⟩
  · rw [h1, h2, List.dropLast_concat]
    simp [List.take_append_drop]
  · rw [h1, List.dropLast_concat, List.length_take]
    omega
  · rw [h2]
    simp [hlen]

/-- Witness for C10 on the scenario route at the middle waypoint. -/
theorem splitRoute_partitions_waypoints_witness :
    (⟨0, 0, some midpointCity⟩ : CurrentPosition).current_waypoint = some midpointCity ∧
    midpointCity.index < sampleRoute.waypoints.length ∧
    ((splitRoute sampleRoute.waypoints (some ⟨0, 0, some midpointCity⟩)).1.dropLast
      ++ (splitRoute sampleRoute.waypoints (some ⟨0, 0, some midpointCity⟩)).2.drop 1
      = routeCoords sampleRoute.waypoints) :=
  ⟨rfl, by decide,
    (splitRoute_partitions_waypoints sampleRoute.waypoints ⟨0, 0, some midpointCity⟩
      midpointCity rfl (by decide)).2.2.1⟩

end Walks
